import Mathlib

/-!
Verification development for the f1-messenger-app HTTP bridge
(mcp-bridge.py). The dispatch engine, fallback provider, metrics
aggregator and token issuer are embedded shallowly:

* the primary capability set (the in-process F1 data functions) is an
  oracle of type String to Arguments to Except String Json, since the
  bridge treats it as an opaque callable set;
* the network (the requests library) is an oracle from URL to an HTTP
  outcome; the embedding records every HTTP request the fallback issues,
  together with the timeout passed to requests.get (the source passes
  none);
* Python exceptions become Except / Option values: a raised exception in
  call_mcp_tool is an error value, the blanket try/except in
  ergast_fallback is totality of the Lean function returning none;
* the PyJWT library is modelled as an ideal signature scheme: a signed
  token carries its payload and the secret it was signed with, and
  decoding succeeds exactly when the secret matches and the expiry lies
  in the future (PyJWT raises ExpiredSignatureError when exp is not in
  the future).
-/

namespace F1Bridge

/-- JSON-like structured values exchanged by the bridge. -/
inductive Json where
  | str (s : String)
  | num (n : Int)
  | arr (xs : List Json)
  | obj (fields : List (String × Json))

/-- Dictionary access: indexing a Python dict. Indexing anything that is
not a dict, or a missing key, raises in Python; both are none here. -/
def Json.getField : Json → String → Option Json
  | .obj fields, key => fields.lookup key
  | _, _ => none

/-- List indexing; out of range or not a list raises, hence none. -/
def Json.getIndex : Json → Nat → Option Json
  | .arr xs, i => xs.get? i
  | _, _ => none

/-- View a JSON value as a Python list; slicing a non-list raises. -/
def Json.asArr : Json → Option (List Json)
  | .arr xs => some xs
  | _ => none

/-- Scalar argument values appearing in tool requests. -/
inductive PyValue where
  | int (n : Int)
  | str (s : String)
deriving DecidableEq, Repr

/-- The arguments dict of a ToolRequest. -/
abbrev Arguments := List (String × PyValue)

/-- Python dict.get: some value or none when the key is absent. -/
def getArg (args : Arguments) (key : String) : Option PyValue :=
  args.lookup key

/-- The fallback gate of call_tool_with_fallback, line 78 of the source:
arguments.get of year compared with the literal 2024. -/
def yearIs2024 (args : Arguments) : Bool :=
  decide (getArg args "year" = some (PyValue.int 2024))

/-- The fixed tool registry: the keys of the tool_functions dict built in
call_mcp_tool (lines 103 to 112 of the source). -/
def toolNames : List String :=
  ["get_championship_standings", "get_event_schedule", "get_event_info",
   "get_session_results", "get_driver_info", "analyze_driver_performance",
   "compare_drivers", "get_telemetry"]

/-- The opaque primary capability set: for each resolvable tool name, the
underlying data function either returns a payload or raises. -/
abbrev Primary := String → Arguments → Except String Json

/-- call_mcp_tool, lines 85 to 122: an unregistered name raises the
Unknown tool exception, a registered one invokes its capability. -/
def call_mcp_tool (primary : Primary) (tool_name : String)
    (arguments : Arguments) : Except String Json :=
  if tool_name ∈ toolNames then primary tool_name arguments
  else Except.error ("Unknown tool: " ++ tool_name)

/-- An HTTP request issued through requests.get, recording the timeout
argument that was (or was not) passed. -/
structure HttpRequest where
  url : String
  timeout : Option Nat
deriving DecidableEq, Repr

/-- Outcome of one requests.get call: the call itself raised, or a reply
arrived with a status code and a body (none when response.json raised). -/
inductive HttpResult where
  | raised (msg : String)
  | reply (status : Nat) (body : Option Json)

/-- The network oracle, keyed by URL. -/
abbrev Net := String → HttpResult

/-- URL requested by the standings branch of ergast_fallback (line 128). -/
def standingsUrl : String := "http://ergast.com/api/f1/2024/driverStandings.json"

/-- URL requested by the schedule branch of ergast_fallback (line 149). -/
def scheduleUrl : String := "http://ergast.com/api/f1/2024.json"

/-- Re-projection of one DriverStandings entry (lines 136 to 142): any
missing key raises, so the whole comprehension yields none. -/
def projectDriver (driver : Json) : Option Json :=
  match driver.getField "Driver" with
  | none => none
  | some d =>
    match d.getField "code", d.getField "givenName", d.getField "familyName",
          driver.getField "points", driver.getField "position" with
    | some code, some given, some family, some points, some position =>
        some (Json.obj [("driverCode", code), ("givenName", given),
          ("familyName", family), ("points", points), ("position", position)])
    | _, _, _, _, _ => none

/-- Re-projection of one race entry (lines 156 to 161). -/
def projectRace (race : Json) : Option Json :=
  match race.getField "raceName", race.getField "date",
        race.getField "Circuit", race.getField "round" with
  | some name, some date, some circuit, some round =>
    match circuit.getField "circuitName" with
    | some cname =>
        some (Json.obj [("EventName", name), ("EventDate", date),
          ("CircuitName", cname), ("RoundNumber", round)])
    | none => none
  | _, _, _, _ => none

/-- A Python list comprehension over an Option-producing projection:
the first failure aborts the whole comprehension. -/
def projectAll (f : Json → Option Json) : List Json → Option (List Json)
  | [] => some []
  | d :: rest =>
    match f d with
    | none => none
    | some p =>
      match projectAll f rest with
      | none => none
      | some ps => some (p :: ps)

/-- Navigation data.MRData.StandingsTable.StandingsLists.0.DriverStandings
of line 131. -/
def extractDriverStandings (body : Json) : Option (List Json) := do
  let mr ← body.getField "MRData"
  let st ← mr.getField "StandingsTable"
  let lists ← st.getField "StandingsLists"
  let first ← lists.getIndex 0
  let ds ← first.getField "DriverStandings"
  ds.asArr

/-- Navigation data.MRData.RaceTable.Races of line 152. -/
def extractRaces (body : Json) : Option (List Json) := do
  let mr ← body.getField "MRData"
  let rt ← mr.getField "RaceTable"
  let races ← rt.getField "Races"
  races.asArr

/-- The body of the standings branch after a 200 reply: parse the JSON,
navigate the fixed shape, take the first ten entries, re-project each,
and wrap as a status and data envelope (lines 130 to 146). Any raised
step lands in the blanket except and yields none. -/
def parseStandings (body : Option Json) : Option Json :=
  match body with
  | none => none
  | some b =>
    match extractDriverStandings b with
    | none => none
    | some drivers =>
      match projectAll projectDriver (drivers.take 10) with
      | none => none
      | some projected =>
          some (Json.obj [("status", Json.str "success"),
            ("data", Json.obj [("drivers", Json.arr projected)])])

/-- The body of the schedule branch after a 200 reply (lines 151 to 164). -/
def parseSchedule (body : Option Json) : Option Json :=
  match body with
  | none => none
  | some b =>
    match extractRaces b with
    | none => none
    | some races =>
      match projectAll projectRace races with
      | none => none
      | some projected =>
          some (Json.obj [("status", Json.str "success"),
            ("data", Json.arr projected)])

/-- ergast_fallback, lines 124 to 170. Returns the optional payload (none
is the not-handled outcome) together with the list of HTTP requests it
issued; the source passes no timeout argument to requests.get, hence
every recorded request carries timeout none. Totality of this function
is the embedding of the blanket try/except: no outcome escapes as an
exception. -/
def ergast_fallback (net : Net) (tool_name : String) (_arguments : Arguments) :
    Option Json × List HttpRequest :=
  if tool_name = "get_championship_standings" then
    match net standingsUrl with
    | .raised _ => (none, [{ url := standingsUrl, timeout := none }])
    | .reply status body =>
      if status = 200 then
        match parseStandings body with
        | some payload => (some payload, [{ url := standingsUrl, timeout := none }])
        | none => (none, [{ url := standingsUrl, timeout := none }])
      else (none, [{ url := standingsUrl, timeout := none }])
  else if tool_name = "get_event_schedule" then
    match net scheduleUrl with
    | .raised _ => (none, [{ url := scheduleUrl, timeout := none }])
    | .reply status body =>
      if status = 200 then
        match parseSchedule body with
        | some payload => (some payload, [{ url := scheduleUrl, timeout := none }])
        | none => (none, [{ url := scheduleUrl, timeout := none }])
      else (none, [{ url := scheduleUrl, timeout := none }])
  else (none, [])

/-- The mutable counters of F1MCPBridge (lines 42 to 44): tool_calls,
successful_calls and the errors_by_tool dict. -/
structure BridgeState where
  tool_calls : Nat
  successful_calls : Nat
  errors_by_tool : List (String × Nat)
deriving DecidableEq, Repr

/-- The state built by the constructor (lines 39 to 45). -/
def initState : BridgeState :=
  { tool_calls := 0, successful_calls := 0, errors_by_tool := [] }

/-- Python dict.get with default 0, as used on line 75. -/
def errCount (m : List (String × Nat)) (key : String) : Nat :=
  (m.lookup key).getD 0

/-- Python dict assignment: overwrite in place or append a new key. -/
def setErr : List (String × Nat) → String → Nat → List (String × Nat)
  | [], key, v => [(key, v)]
  | (k, v0) :: rest, key, v =>
      if k = key then (key, v) :: rest else (k, v0) :: setErr rest key v

/-- Line 75: errors_by_tool of tool_name becomes its old count plus one. -/
def incErr (m : List (String × Nat)) (key : String) : List (String × Nat) :=
  setErr m key (errCount m key + 1)

/-- Outcome of one dispatch: the result as the caller sees it, the new
counter state, how many times ergast_fallback was invoked, and the HTTP
requests issued to the fallback upstream. -/
structure DispatchResult where
  result : Except String Json
  state : BridgeState
  fallbackCalls : Nat
  requests : List HttpRequest

/-- call_tool_with_fallback, lines 63 to 83. tool_calls is bumped first;
a primary success bumps successful_calls; a primary exception bumps the
tool error count, then ergast_fallback runs exactly when the year
argument equals 2024, its payload (when some) is returned as the result,
and otherwise the original exception propagates. A fallback success does
not touch successful_calls: the source returns the fallback result
without incrementing it. -/
def call_tool_with_fallback (primary : Primary) (net : Net) (s : BridgeState)
    (tool_name : String) (arguments : Arguments) : DispatchResult :=
  match call_mcp_tool primary tool_name arguments with
  | .ok result =>
      { result := .ok result,
        state := { tool_calls := s.tool_calls + 1,
                   successful_calls := s.successful_calls + 1,
                   errors_by_tool := s.errors_by_tool },
        fallbackCalls := 0, requests := [] }
  | .error e =>
      if yearIs2024 arguments then
        match ergast_fallback net tool_name arguments with
        | (some payload, reqs) =>
            { result := .ok payload,
              state := { tool_calls := s.tool_calls + 1,
                         successful_calls := s.successful_calls,
                         errors_by_tool := incErr s.errors_by_tool tool_name },
              fallbackCalls := 1, requests := reqs }
        | (none, reqs) =>
            { result := .error e,
              state := { tool_calls := s.tool_calls + 1,
                         successful_calls := s.successful_calls,
                         errors_by_tool := incErr s.errors_by_tool tool_name },
              fallbackCalls := 1, requests := reqs }
      else
        { result := .error e,
          state := { tool_calls := s.tool_calls + 1,
                     successful_calls := s.successful_calls,
                     errors_by_tool := incErr s.errors_by_tool tool_name },
          fallbackCalls := 0, requests := [] }

/-- Response of the POST mcp tool endpoint: a JSON body on success, or
an HTTPException with status and detail. -/
inductive EndpointResponse where
  | jsonBody (body : Json)
  | httpError (status : Nat) (detail : String)

/-- The call_tool endpoint, lines 253 to 260: wrap a dispatch result in
a status and data envelope, convert an exception to HTTPException 500. -/
def call_tool (primary : Primary) (net : Net) (s : BridgeState)
    (name : String) (arguments : Arguments) : EndpointResponse × BridgeState :=
  let d := call_tool_with_fallback primary net s name arguments
  match d.result with
  | .ok result =>
      (.jsonBody (Json.obj [("status", Json.str "success"), ("data", result)]), d.state)
  | .error e => (.httpError 500 e, d.state)

/-- The HealthResponse model (lines 31 to 36). -/
structure HealthResponse where
  status : String
  uptime : ℚ
  tool_calls : Nat
  success_rate : ℚ
  errors : List (String × Nat)

/-- get_health_metrics, lines 172 to 183; wall-clock instants are passed
explicitly, time arithmetic is exact rational arithmetic. -/
def get_health_metrics (now start_time : ℚ) (s : BridgeState) : HealthResponse :=
  { status := "healthy",
    uptime := now - start_time,
    tool_calls := s.tool_calls,
    success_rate :=
      if s.tool_calls > 0 then
        (s.successful_calls : ℚ) / (s.tool_calls : ℚ) * 100
      else 0,
    errors := s.errors_by_tool }

/-- The fixed signing secret of line 46. -/
def jwt_secret : String := "cursor-f1-mcp-secret-key"

/-- Claims carried by a token: user_id and the absolute expiry instant
in seconds. -/
structure JwtPayload where
  user_id : String
  exp : Int
deriving DecidableEq, Repr

/-- A token as the holder sees it: either well formed and signed with
some secret, or structurally corrupted. -/
inductive Token where
  | signed (payload : JwtPayload) (secret : String)
  | malformed (raw : String)
deriving DecidableEq, Repr

/-- Ideal model of jwt.encode with algorithm HS256. -/
def jwt_encode (payload : JwtPayload) (secret : String) : Token :=
  Token.signed payload secret

/-- Ideal model of jwt.decode: the signature must verify against the
given secret and the expiry must lie strictly in the future; every
failure mode is the single InvalidTokenError outcome, none. -/
def jwt_decode (tok : Token) (secret : String) (now : Int) : Option JwtPayload :=
  match tok with
  | .signed p s => if s = secret ∧ now < p.exp then some p else none
  | .malformed _ => none

/-- One hour, the timedelta of line 52, in seconds. -/
def one_hour : Int := 3600

/-- generate_jwt, lines 48 to 54: payload carries user_id and an expiry
one hour past the issuance instant, signed with the bridge secret. -/
def generate_jwt (now : Int) (user_id : String) : Token :=
  jwt_encode { user_id := user_id, exp := now + one_hour } jwt_secret

/-- verify_jwt, lines 56 to 61: decode against the bridge secret; none
is the HTTPException 401 raised on InvalidTokenError, carrying no
claims. -/
def verify_jwt (now : Int) (token : Token) : Option JwtPayload :=
  jwt_decode token jwt_secret now

/-- Did a dispatch produce a Success result? -/
def isSuccess : Except String Json → Bool
  | .ok _ => true
  | .error _ => false

/-- Payload of a Success result, if any. -/
def okPayload : Except String Json → Option Json
  | .ok j => some j
  | .error _ => none

/-- Number of entries of the drivers list inside a standings payload. -/
def driversCount (payload : Json) : Option Nat :=
  match payload.getField "data" with
  | none => none
  | some d =>
    match d.getField "drivers" with
    | none => none
    | some ds =>
      match ds.asArr with
      | none => none
      | some xs => some xs.length

/-- A primary capability set whose every invocation raises. -/
def failPrimary : Primary := fun _ _ => Except.error "boom"

/-- A primary capability set whose every invocation returns a payload. -/
def okPrimary : Primary := fun _ _ => Except.ok (Json.str "primary-data")

/-- A network on which every request raises a transport error. -/
def netDead : Net := fun _ => HttpResult.raised "connection refused"

/-- Arguments dict with year 2024, the fallback-eligible year. -/
def args2024 : Arguments := [("year", PyValue.int 2024)]

/-- Arguments dict with year 2023, not fallback eligible. -/
def args2023 : Arguments := [("year", PyValue.int 2023)]

/-- A DriverStandings entry in the upstream Ergast shape. -/
def sampleDriver (code given family : String) (pts pos : Int) : Json :=
  Json.obj [("Driver", Json.obj [("code", Json.str code),
      ("givenName", Json.str given), ("familyName", Json.str family)]),
    ("points", Json.num pts), ("position", Json.num pos)]

/-- An Ergast driverStandings response body around a given entry list. -/
def standingsBody (drivers : List Json) : Json :=
  Json.obj [("MRData", Json.obj [("StandingsTable", Json.obj [("StandingsLists",
    Json.arr [Json.obj [("DriverStandings", Json.arr drivers)]])])])]

/-- A network whose every reply is a 200 carrying a one-driver valid
standings body. -/
def net1 : Net := fun _ =>
  HttpResult.reply 200 (some (standingsBody
    [sampleDriver "VER" "Max" "Verstappen" 437 1]))

/-- The fallback payload produced from the one-driver body of net1. -/
def payload1 : Json :=
  ((ergast_fallback net1 "get_championship_standings" args2024).1).getD (Json.str "")

/-- The i-th synthetic standings entry of the twelve-driver fixture. -/
def mkDriver (i : Nat) : Json :=
  sampleDriver ("D" ++ toString i) "Given" "Family" (200 - (i : Int)) ((i : Int) + 1)

/-- Twelve valid standings entries. -/
def ds12 : List Json := (List.range 12).map mkDriver

/-- A network whose every reply is a 200 carrying the twelve-driver
standings body. -/
def net12 : Net := fun _ => HttpResult.reply 200 (some (standingsBody ds12))

/-- The ten re-projected entries obtained from the twelve-driver body. -/
def ps12 : List Json := (projectAll projectDriver (ds12.take 10)).getD []

theorem lookup_cons_self {β : Type} (k : String) (v : β) (rest : List (String × β)) :
    List.lookup k ((k, v) :: rest) = some v := by
  simp [List.lookup]

theorem lookup_cons_ne {β : Type} (k k0 : String) (v : β) (rest : List (String × β))
    (h : k ≠ k0) : List.lookup k ((k0, v) :: rest) = List.lookup k rest := by
  have hb : (k == k0) = false := by simp [h]
  simp [List.lookup, hb]

theorem errCount_setErr (m : List (String × Nat)) (k : String) (v : Nat) :
    errCount (setErr m k v) k = v := by
  induction m with
  | nil => simp [setErr, errCount, lookup_cons_self]
  | cons kv rest ih =>
    obtain ⟨k0, v0⟩ := kv
    by_cases hk : k0 = k
    · subst hk
      simp [setErr, errCount, lookup_cons_self]
    · simp only [setErr, if_neg hk, errCount,
        lookup_cons_ne k k0 v0 (setErr rest k v) (fun h => hk h.symm)]
      exact ih

theorem errCount_incErr_self (m : List (String × Nat)) (k : String) :
    errCount (incErr m k) k = errCount m k + 1 :=
  errCount_setErr m k (errCount m k + 1)

theorem ergast_unsupported (net : Net) (name : String) (args : Arguments)
    (h1 : name ≠ "get_championship_standings")
    (h2 : name ≠ "get_event_schedule") :
    ergast_fallback net name args = (none, []) := by
  unfold ergast_fallback
  rw [if_neg h1, if_neg h2]

theorem ergast_standings_raised (net : Net) (args : Arguments) (msg : String)
    (hn : net standingsUrl = HttpResult.raised msg) :
    ergast_fallback net "get_championship_standings" args =
      (none, [{ url := standingsUrl, timeout := none }]) := by
  unfold ergast_fallback
  rw [hn]
  simp

theorem ergast_standings_reply (net : Net) (args : Arguments)
    (status : Nat) (body : Option Json)
    (hn : net standingsUrl = HttpResult.reply status body) (hst : status ≠ 200) :
    ergast_fallback net "get_championship_standings" args =
      (none, [{ url := standingsUrl, timeout := none }]) := by
  unfold ergast_fallback
  rw [hn]
  simp [hst]

theorem ergast_standings_200 (net : Net) (args : Arguments) (body : Option Json)
    (hn : net standingsUrl = HttpResult.reply 200 body) :
    ergast_fallback net "get_championship_standings" args =
      (parseStandings body, [{ url := standingsUrl, timeout := none }]) := by
  unfold ergast_fallback
  rw [hn]
  cases hp : parseStandings body <;> simp [hp]

theorem ergast_schedule_raised (net : Net) (args : Arguments) (msg : String)
    (hn : net scheduleUrl = HttpResult.raised msg) :
    ergast_fallback net "get_event_schedule" args =
      (none, [{ url := scheduleUrl, timeout := none }]) := by
  unfold ergast_fallback
  rw [hn]
  simp

theorem ergast_schedule_reply (net : Net) (args : Arguments)
    (status : Nat) (body : Option Json)
    (hn : net scheduleUrl = HttpResult.reply status body) (hst : status ≠ 200) :
    ergast_fallback net "get_event_schedule" args =
      (none, [{ url := scheduleUrl, timeout := none }]) := by
  unfold ergast_fallback
  rw [hn]
  simp [hst]

theorem ergast_schedule_200 (net : Net) (args : Arguments) (body : Option Json)
    (hn : net scheduleUrl = HttpResult.reply 200 body) :
    ergast_fallback net "get_event_schedule" args =
      (parseSchedule body, [{ url := scheduleUrl, timeout := none }]) := by
  unfold ergast_fallback
  rw [hn]
  cases hp : parseSchedule body <;> simp [hp]

theorem dispatch_ok (primary : Primary) (net : Net) (s : BridgeState)
    (n : String) (a : Arguments) (r : Json)
    (h : call_mcp_tool primary n a = Except.ok r) :
    call_tool_with_fallback primary net s n a =
      { result := Except.ok r,
        state := { tool_calls := s.tool_calls + 1,
                   successful_calls := s.successful_calls + 1,
                   errors_by_tool := s.errors_by_tool },
        fallbackCalls := 0, requests := [] } := by
  unfold call_tool_with_fallback
  rw [h]

theorem dispatch_error_skip (primary : Primary) (net : Net) (s : BridgeState)
    (n : String) (a : Arguments) (e : String)
    (h : call_mcp_tool primary n a = Except.error e)
    (hy : yearIs2024 a = false) :
    call_tool_with_fallback primary net s n a =
      { result := Except.error e,
        state := { tool_calls := s.tool_calls + 1,
                   successful_calls := s.successful_calls,
                   errors_by_tool := incErr s.errors_by_tool n },
        fallbackCalls := 0, requests := [] } := by
  unfold call_tool_with_fallback
  rw [h, hy]
  rfl

theorem dispatch_error_handled (primary : Primary) (net : Net) (s : BridgeState)
    (n : String) (a : Arguments) (e : String) (p : Json) (r : List HttpRequest)
    (h : call_mcp_tool primary n a = Except.error e)
    (hy : yearIs2024 a = true)
    (hf : ergast_fallback net n a = (some p, r)) :
    call_tool_with_fallback primary net s n a =
      { result := Except.ok p,
        state := { tool_calls := s.tool_calls + 1,
                   successful_calls := s.successful_calls,
                   errors_by_tool := incErr s.errors_by_tool n },
        fallbackCalls := 1, requests := r } := by
  unfold call_tool_with_fallback
  rw [h, hy, hf]
  rfl

theorem dispatch_error_unhandled (primary : Primary) (net : Net) (s : BridgeState)
    (n : String) (a : Arguments) (e : String) (r : List HttpRequest)
    (h : call_mcp_tool primary n a = Except.error e)
    (hy : yearIs2024 a = true)
    (hf : ergast_fallback net n a = (none, r)) :
    call_tool_with_fallback primary net s n a =
      { result := Except.error e,
        state := { tool_calls := s.tool_calls + 1,
                   successful_calls := s.successful_calls,
                   errors_by_tool := incErr s.errors_by_tool n },
        fallbackCalls := 1, requests := r } := by
  unfold call_tool_with_fallback
  rw [h, hy, hf]
  rfl

theorem projectAll_length (f : Json → Option Json) :
    ∀ (l l2 : List Json), projectAll f l = some l2 → l2.length = l.length := by
  intro l
  induction l with
  | nil =>
    intro l2 h
    simp [projectAll] at h
    subst h
    rfl
  | cons d rest ih =>
    intro l2 h
    rcases hf : f d with _ | p
    · simp [projectAll, hf] at h
    · rcases hr : projectAll f rest with _ | ps
      · simp [projectAll, hf, hr] at h
      · simp [projectAll, hf, hr] at h
        subst h
        simp [ih ps hr]

theorem projectAll_mem (f : Json → Option Json) :
    ∀ (l l2 : List Json), projectAll f l = some l2 →
      ∀ q ∈ l2, ∃ d ∈ l, f d = some q := by
  intro l
  induction l with
  | nil =>
    intro l2 h q hq
    simp [projectAll] at h
    subst h
    simp at hq
  | cons d rest ih =>
    intro l2 h q hq
    rcases hf : f d with _ | p
    · simp [projectAll, hf] at h
    · rcases hr : projectAll f rest with _ | ps
      · simp [projectAll, hf, hr] at h
      · simp [projectAll, hf, hr] at h
        subst h
        rcases List.mem_cons.mp hq with hq | hq
        · exact ⟨d, List.mem_cons_self d rest, by rw [hf, hq]⟩
        · obtain ⟨d0, hd0, hfd0⟩ := ih ps hr q hq
          exact ⟨d0, List.mem_cons_of_mem d hd0, hfd0⟩

theorem projectDriver_shape (d q : Json) (h : projectDriver d = some q) :
    ∃ a b c p r, q = Json.obj [("driverCode", a), ("givenName", b),
      ("familyName", c), ("points", p), ("position", r)] := by
  unfold projectDriver at h
  split at h
  · exact absurd h (by simp)
  · split at h
    · cases h
      exact ⟨_, _, _, _, _, rfl⟩
    · exact absurd h (by simp)

theorem parseStandings_shape (body : Option Json) (p : Json)
    (h : parseStandings body = some p) :
    ∃ d, p = Json.obj [("status", Json.str "success"), ("data", d)] := by
  unfold parseStandings at h
  split at h
  · exact absurd h (by simp)
  · split at h
    · exact absurd h (by simp)
    · split at h
      · exact absurd h (by simp)
      · cases h
        exact ⟨_, rfl⟩

theorem parseSchedule_shape (body : Option Json) (p : Json)
    (h : parseSchedule body = some p) :
    ∃ d, p = Json.obj [("status", Json.str "success"), ("data", d)] := by
  unfold parseSchedule at h
  split at h
  · exact absurd h (by simp)
  · split at h
    · exact absurd h (by simp)
    · split at h
      · exact absurd h (by simp)
      · cases h
        exact ⟨_, rfl⟩

theorem ergast_envelope (net : Net) (name : String) (args : Arguments) (p : Json)
    (h : (ergast_fallback net name args).1 = some p) :
    p.getField "status" = some (Json.str "success") ∧
    (p.getField "data").isSome = true := by
  unfold ergast_fallback at h
  split at h
  · split at h
    · simp at h
    · split at h
      · split at h
        · rename_i hp
          simp at h
          subst h
          obtain ⟨d, rfl⟩ := parseStandings_shape _ _ hp
          exact ⟨rfl, rfl⟩
        · simp at h
      · simp at h
  · split at h
    · split at h
      · simp at h
      · split at h
        · split at h
          · rename_i hp
            simp at h
            subst h
            obtain ⟨d, rfl⟩ := parseSchedule_shape _ _ hp
            exact ⟨rfl, rfl⟩
          · simp at h
        · simp at h
    · simp at h

/-- C1, counterexample. A dispatch in which the primary raises, the year
argument is 2024 and the fallback produces a payload returns Success,
yet successful_calls stays at 0 instead of being incremented: the source
returns the fallback payload without touching successful_calls, contrary
to the claim. -/
theorem C1_counterexample :
    isSuccess (call_tool_with_fallback failPrimary net1 initState
      "get_championship_standings" args2024).result = true ∧
    (call_tool_with_fallback failPrimary net1 initState
      "get_championship_standings" args2024).state.successful_calls = 0 :=
  ⟨rfl, rfl⟩

/-- C1, amended. When the primary raises, the arguments carry year 2024
and the fallback produces a payload, the dispatch returns Success with
the fallback payload and leaves successful_calls unchanged, while the
tool error count recorded for the primary failure is kept (incremented
by exactly one, not cleared) and tool_calls is incremented. -/
theorem C1_fallback_success_counters (primary : Primary) (net : Net)
    (s : BridgeState) (name : String) (args : Arguments)
    (e : String) (p : Json) (r : List HttpRequest)
    (h : call_mcp_tool primary name args = Except.error e)
    (hy : yearIs2024 args = true)
    (hf : ergast_fallback net name args = (some p, r)) :
    (call_tool_with_fallback primary net s name args).result = Except.ok p ∧
    (call_tool_with_fallback primary net s name args).state.successful_calls =
      s.successful_calls ∧
    errCount (call_tool_with_fallback primary net s name args).state.errors_by_tool
      name = errCount s.errors_by_tool name + 1 ∧
    (call_tool_with_fallback primary net s name args).state.tool_calls =
      s.tool_calls + 1 := by
  rw [dispatch_error_handled primary net s name args e p r h hy hf]
  exact ⟨rfl, rfl, errCount_incErr_self _ _, rfl⟩

/-- C1, witness: the amended statement at the concrete one-driver
fixture. -/
theorem C1_witness :
    (call_tool_with_fallback failPrimary net1 initState
      "get_championship_standings" args2024).result = Except.ok payload1 ∧
    (call_tool_with_fallback failPrimary net1 initState
      "get_championship_standings" args2024).state.successful_calls =
        initState.successful_calls :=
  ⟨(C1_fallback_success_counters failPrimary net1 initState
      "get_championship_standings" args2024 "boom" payload1
      [{ url := standingsUrl, timeout := none }] rfl rfl rfl).1,
   (C1_fallback_success_counters failPrimary net1 initState
      "get_championship_standings" args2024 "boom" payload1
      [{ url := standingsUrl, timeout := none }] rfl rfl rfl).2.1⟩

/-- C2, counterexample. The name bogus is not in the registry, yet a
dispatch of it with year 2024 invokes the fallback provider once: the
source shares one exception handler between the unknown-tool exception
and capability errors, so the fallback gate also applies to unknown
tools, contrary to the claim that fallback is never attempted for them. -/
theorem C2_counterexample :
    toolNames.contains "bogus" = false ∧
    (call_tool_with_fallback okPrimary netDead initState "bogus"
      args2024).fallbackCalls = 1 :=
  ⟨rfl, rfl⟩

/-- C2, amended. A dispatch of a name outside the registry returns a
Failure naming the unknown tool, increments tool_calls and the error
count under that name, leaves successful_calls unchanged, issues no
network request, and invokes the fallback provider exactly when the
year argument equals 2024 (the provider then does not handle the call,
so the unknown-tool Failure is still returned). -/
theorem C2_unknown_tool (primary : Primary) (net : Net) (s : BridgeState)
    (name : String) (args : Arguments)
    (h : name ∉ toolNames) :
    (call_tool_with_fallback primary net s name args).result =
      Except.error ("Unknown tool: " ++ name) ∧
    (call_tool_with_fallback primary net s name args).state.tool_calls =
      s.tool_calls + 1 ∧
    (call_tool_with_fallback primary net s name args).state.successful_calls =
      s.successful_calls ∧
    errCount (call_tool_with_fallback primary net s name args).state.errors_by_tool
      name = errCount s.errors_by_tool name + 1 ∧
    (call_tool_with_fallback primary net s name args).fallbackCalls =
      (if yearIs2024 args then 1 else 0) ∧
    (call_tool_with_fallback primary net s name args).requests = [] := by
  have hcm : call_mcp_tool primary name args =
      Except.error ("Unknown tool: " ++ name) := by
    unfold call_mcp_tool
    rw [if_neg h]
  have h1 : name ≠ "get_championship_standings" := by
    rintro rfl
    exact h (by decide)
  have h2 : name ≠ "get_event_schedule" := by
    rintro rfl
    exact h (by decide)
  have hfb : ergast_fallback net name args = (none, []) :=
    ergast_unsupported net name args h1 h2
  cases hy : yearIs2024 args
  · rw [dispatch_error_skip primary net s name args _ hcm hy]
    exact ⟨rfl, rfl, rfl, errCount_incErr_self _ _, rfl, rfl⟩
  · rw [dispatch_error_unhandled primary net s name args _ [] hcm hy hfb]
    exact ⟨rfl, rfl, rfl, errCount_incErr_self _ _, rfl, rfl⟩

/-- C2, witness: the amended statement at the concrete unknown name
bogus with a non-eligible year. -/
theorem C2_witness :
    (call_tool_with_fallback okPrimary netDead initState "bogus"
      args2023).result = Except.error ("Unknown tool: " ++ "bogus") ∧
    (call_tool_with_fallback okPrimary netDead initState "bogus"
      args2023).state.tool_calls = initState.tool_calls + 1 ∧
    (call_tool_with_fallback okPrimary netDead initState "bogus"
      args2023).state.successful_calls = initState.successful_calls ∧
    errCount (call_tool_with_fallback okPrimary netDead initState "bogus"
      args2023).state.errors_by_tool "bogus" =
      errCount initState.errors_by_tool "bogus" + 1 ∧
    (call_tool_with_fallback okPrimary netDead initState "bogus"
      args2023).fallbackCalls = (if yearIs2024 args2023 then 1 else 0) ∧
    (call_tool_with_fallback okPrimary netDead initState "bogus"
      args2023).requests = [] :=
  C2_unknown_tool okPrimary netDead initState "bogus" args2023 (by decide)

/-- C3: when the primary raises, the fallback provider is invoked if and
only if the year argument equals 2024; otherwise the dispatch fails with
the original error and no network request is made; the fallback runs at
most once per dispatch; and when it does not handle the request, the
original primary error message is the Failure returned. -/
theorem C3_fallback_gating (primary : Primary) (net : Net) (s : BridgeState)
    (name : String) (args : Arguments) (e : String)
    (h : call_mcp_tool primary name args = Except.error e) :
    ((call_tool_with_fallback primary net s name args).fallbackCalls =
      if yearIs2024 args then 1 else 0) ∧
    (call_tool_with_fallback primary net s name args).fallbackCalls ≤ 1 ∧
    (yearIs2024 args = false →
      (call_tool_with_fallback primary net s name args).result = Except.error e ∧
      (call_tool_with_fallback primary net s name args).requests = []) ∧
    (yearIs2024 args = true → (ergast_fallback net name args).1 = none →
      (call_tool_with_fallback primary net s name args).result = Except.error e) := by
  cases hy : yearIs2024 args
  · rw [dispatch_error_skip primary net s name args e h hy]
    refine ⟨rfl, Nat.zero_le 1, fun _ => ⟨rfl, rfl⟩, fun hc _ => ?_⟩
    exact absurd hc (by simp)
  · rcases hf : ergast_fallback net name args with ⟨op, reqs⟩
    cases op with
    | none =>
      rw [dispatch_error_unhandled primary net s name args e reqs h hy hf]
      refine ⟨rfl, Nat.le_refl 1, fun hc => ?_, fun _ _ => rfl⟩
      exact absurd hc (by simp)
    | some p =>
      rw [dispatch_error_handled primary net s name args e p reqs h hy hf]
      refine ⟨rfl, Nat.le_refl 1, fun hc => ?_, fun _ hn => ?_⟩
      · exact absurd hc (by simp)
      · exact absurd hn (by simp)

/-- C3, witness: a primary failure with year 2023 propagates the error
and issues no fallback request. -/
theorem C3_witness :
    (call_tool_with_fallback failPrimary netDead initState "get_event_info"
      args2023).result = Except.error "boom" ∧
    (call_tool_with_fallback failPrimary netDead initState "get_event_info"
      args2023).requests = [] :=
  (C3_fallback_gating failPrimary netDead initState "get_event_info" args2023
    "boom" rfl).2.2.1 rfl

/-- C4, counterexample. The standings fallback issues its request to the
upstream with timeout none: the source calls requests.get without a
timeout argument, so no bounded wait is imposed, contrary to the claim. -/
theorem C4_counterexample :
    (ergast_fallback netDead "get_championship_standings" args2024).2 =
      [{ url := standingsUrl, timeout := none }] :=
  rfl

/-- C4, amended. Every network request the fallback provider issues
carries no timeout at all: the wait on the fallback upstream is
unbounded rather than bounded. -/
theorem C4_no_timeout (net : Net) (name : String) (args : Arguments)
    (q : HttpRequest) (h : q ∈ (ergast_fallback net name args).2) :
    q.timeout = none := by
  unfold ergast_fallback at h
  split at h
  · split at h
    · simp at h
      subst h
      rfl
    · split at h
      · split at h
        · simp at h
          subst h
          rfl
        · simp at h
          subst h
          rfl
      · simp at h
        subst h
        rfl
  · split at h
    · split at h
      · simp at h
        subst h
        rfl
      · split at h
        · split at h
          · simp at h
            subst h
            rfl
          · simp at h
            subst h
            rfl
        · simp at h
          subst h
          rfl
    · simp at h

/-- C4, witness: the amended statement at the concrete request the
standings branch issues. -/
theorem C4_witness :
    HttpRequest.timeout { url := standingsUrl, timeout := none } = none :=
  C4_no_timeout netDead "get_championship_standings" args2024
    { url := standingsUrl, timeout := none } (by decide)

/-- C5: the snapshot computes success_rate as successful_calls over
tool_calls times 100 whenever tool_calls is positive, and as exactly 0
when tool_calls is 0; the zero case is a guarded branch, not a division
(division by zero cannot be raised from the total embedding). -/
theorem C5_success_rate (now start_time : ℚ) (s : BridgeState) :
    (get_health_metrics now start_time s).success_rate =
      if s.tool_calls = 0 then 0
      else (s.successful_calls : ℚ) / (s.tool_calls : ℚ) * 100 := by
  unfold get_health_metrics
  rcases Nat.eq_zero_or_pos s.tool_calls with h | h
  · simp [h]
  · rw [if_pos h, if_neg (Nat.pos_iff_ne_zero.mp h)]

/-- C6: a token issued for a user embeds that user_id with expiry exactly
one hour past issuance; verifying it strictly before expiry returns the
original claims, verifying it at or after expiry returns Invalid, and a
malformed or wrongly signed token returns Invalid uniformly, never
partial claims. -/
theorem C6_auth_token_lifecycle (uid : String) (issued now : Int) :
    generate_jwt issued uid =
      Token.signed { user_id := uid, exp := issued + one_hour } jwt_secret ∧
    (now < issued + one_hour →
      verify_jwt now (generate_jwt issued uid) =
        some { user_id := uid, exp := issued + one_hour }) ∧
    (issued + one_hour ≤ now →
      verify_jwt now (generate_jwt issued uid) = none) ∧
    (∀ raw, verify_jwt now (Token.malformed raw) = none) ∧
    (∀ p sec, sec ≠ jwt_secret → verify_jwt now (Token.signed p sec) = none) := by
  refine ⟨rfl, ?_, ?_, fun raw => rfl, ?_⟩
  · intro hlt
    simp [verify_jwt, jwt_decode, generate_jwt, jwt_encode, hlt]
  · intro hge
    simp [verify_jwt, jwt_decode, generate_jwt, jwt_encode]
    omega
  · intro p sec hs
    simp [verify_jwt, jwt_decode, hs]

/-- C6, witness: a token issued at instant 0 verifies at instant 100 and
is rejected at instant 5000. -/
theorem C6_witness :
    verify_jwt 100 (generate_jwt 0 "f1-user") =
      some { user_id := "f1-user", exp := 0 + one_hour } ∧
    verify_jwt 5000 (generate_jwt 0 "f1-user") = none :=
  ⟨(C6_auth_token_lifecycle "f1-user" 0 100).2.1 (by decide),
   (C6_auth_token_lifecycle "f1-user" 0 5000).2.2.1 (by decide)⟩

/-- C7: the fallback provider is a total function (the blanket
try/except never lets an exception escape); a name other than the
standings and schedule tools yields not-handled with no network request,
and for the supported tools a transport error, a non-200 status, or a
body whose parsing fails each yield not-handled. -/
theorem C7_fallback_never_raises (net : Net) (name : String) (args : Arguments) :
    (name ≠ "get_championship_standings" → name ≠ "get_event_schedule" →
      ergast_fallback net name args = (none, [])) ∧
    (∀ msg, net standingsUrl = HttpResult.raised msg →
      (ergast_fallback net "get_championship_standings" args).1 = none) ∧
    (∀ status body, net standingsUrl = HttpResult.reply status body →
      status ≠ 200 →
      (ergast_fallback net "get_championship_standings" args).1 = none) ∧
    (∀ body, net standingsUrl = HttpResult.reply 200 body →
      parseStandings body = none →
      (ergast_fallback net "get_championship_standings" args).1 = none) ∧
    (∀ msg, net scheduleUrl = HttpResult.raised msg →
      (ergast_fallback net "get_event_schedule" args).1 = none) ∧
    (∀ status body, net scheduleUrl = HttpResult.reply status body →
      status ≠ 200 →
      (ergast_fallback net "get_event_schedule" args).1 = none) ∧
    (∀ body, net scheduleUrl = HttpResult.reply 200 body →
      parseSchedule body = none →
      (ergast_fallback net "get_event_schedule" args).1 = none) := by
  refine ⟨fun h1 h2 => ergast_unsupported net name args h1 h2,
    fun msg hn => ?_, fun status body hn hst => ?_, fun body hn hp => ?_,
    fun msg hn => ?_, fun status body hn hst => ?_, fun body hn hp => ?_⟩
  · rw [ergast_standings_raised net args msg hn]
  · rw [ergast_standings_reply net args status body hn hst]
  · rw [ergast_standings_200 net args body hn, hp]
  · rw [ergast_schedule_raised net args msg hn]
  · rw [ergast_schedule_reply net args status body hn hst]
  · rw [ergast_schedule_200 net args body hn, hp]

/-- C7, witness: an unsupported name yields not-handled without a
request, and a transport error on the standings request yields
not-handled. -/
theorem C7_witness :
    ergast_fallback netDead "get_driver_info" args2024 = (none, []) ∧
    (ergast_fallback netDead "get_championship_standings" args2024).1 = none :=
  ⟨(C7_fallback_never_raises netDead "get_driver_info" args2024).1
      (by decide) (by decide),
   (C7_fallback_never_raises netDead "get_championship_standings" args2024).2.1
      "connection refused" rfl⟩

/-- C8, counterexample. With the primary raising, year 2024, and the
upstream returning a valid standings list of one entry, the dispatch is
a Success whose drivers list has one entry, not ten: the source takes
the first ten entries of whatever list arrives, so a shorter valid list
yields fewer than ten entries, contrary to the claim. -/
theorem C8_counterexample :
    isSuccess (call_tool_with_fallback failPrimary net1 initState
      "get_championship_standings" args2024).result = true ∧
    ((okPayload (call_tool_with_fallback failPrimary net1 initState
      "get_championship_standings" args2024).result).bind driversCount) =
      some 1 :=
  ⟨rfl, rfl⟩

/-- C8, amended. For a standings dispatch with year 2024 whose primary
raises and whose upstream returns a parseable standings list, the result
is Success whose drivers list has exactly the minimum of ten and the
upstream list length entries (hence exactly ten whenever the upstream
list has at least ten), each re-projected to exactly the fields
driverCode, givenName, familyName, points, position. -/
theorem C8_standings_projection (primary : Primary) (net : Net)
    (s : BridgeState) (args : Arguments) (e : String) (body : Json)
    (ds ps : List Json)
    (h : call_mcp_tool primary "get_championship_standings" args =
      Except.error e)
    (hy : yearIs2024 args = true)
    (hn : net standingsUrl = HttpResult.reply 200 (some body))
    (hx : extractDriverStandings body = some ds)
    (hp : projectAll projectDriver (ds.take 10) = some ps) :
    (call_tool_with_fallback primary net s "get_championship_standings"
      args).result =
      Except.ok (Json.obj [("status", Json.str "success"),
        ("data", Json.obj [("drivers", Json.arr ps)])]) ∧
    ps.length = min 10 ds.length ∧
    ∀ q ∈ ps, ∃ a b c pt po, q = Json.obj [("driverCode", a),
      ("givenName", b), ("familyName", c), ("points", pt),
      ("position", po)] := by
  have hparse : parseStandings (some body) =
      some (Json.obj [("status", Json.str "success"),
        ("data", Json.obj [("drivers", Json.arr ps)])]) := by
    simp [parseStandings, hx, hp]
  have hfb : ergast_fallback net "get_championship_standings" args =
      (some (Json.obj [("status", Json.str "success"),
        ("data", Json.obj [("drivers", Json.arr ps)])]),
       [{ url := standingsUrl, timeout := none }]) := by
    rw [ergast_standings_200 net args (some body) hn, hparse]
  refine ⟨?_, ?_, ?_⟩
  · rw [dispatch_error_handled primary net s "get_championship_standings"
      args e _ _ h hy hfb]
  · have hl := projectAll_length projectDriver (ds.take 10) ps hp
    rw [hl, List.length_take]
  · intro q hq
    obtain ⟨d, _, hfd⟩ := projectAll_mem projectDriver (ds.take 10) ps hp q hq
    exact projectDriver_shape d q hfd

/-- C8, witness: a twelve-entry upstream list produces exactly ten
re-projected entries. -/
theorem C8_witness :
    (call_tool_with_fallback failPrimary net12 initState
      "get_championship_standings" args2024).result =
      Except.ok (Json.obj [("status", Json.str "success"),
        ("data", Json.obj [("drivers", Json.arr ps12)])]) ∧
    ps12.length = min 10 ds12.length ∧
    ps12.length = 10 :=
  ⟨(C8_standings_projection failPrimary net12 initState args2024 "boom"
      (standingsBody ds12) ds12 ps12 rfl rfl rfl rfl rfl).1,
   (C8_standings_projection failPrimary net12 initState args2024 "boom"
      (standingsBody ds12) ds12 ps12 rfl rfl rfl rfl rfl).2.1,
   rfl⟩

/-- C9: every dispatch increments tool_calls by exactly one, changes
successful_calls by zero or one, and preserves the invariant that
successful_calls never exceeds tool_calls. -/
theorem C9_counters_invariant (primary : Primary) (net : Net)
    (s : BridgeState) (name : String) (args : Arguments)
    (h : s.successful_calls ≤ s.tool_calls) :
    (call_tool_with_fallback primary net s name args).state.tool_calls =
      s.tool_calls + 1 ∧
    ((call_tool_with_fallback primary net s name args).state.successful_calls =
        s.successful_calls ∨
     (call_tool_with_fallback primary net s name args).state.successful_calls =
        s.successful_calls + 1) ∧
    (call_tool_with_fallback primary net s name args).state.successful_calls ≤
      (call_tool_with_fallback primary net s name args).state.tool_calls := by
  rcases hc : call_mcp_tool primary name args with e | r
  · cases hy : yearIs2024 args
    · rw [dispatch_error_skip primary net s name args e hc hy]
      exact ⟨rfl, Or.inl rfl, Nat.le_succ_of_le h⟩
    · rcases hf : ergast_fallback net name args with ⟨op, reqs⟩
      cases op with
      | none =>
        rw [dispatch_error_unhandled primary net s name args e reqs hc hy hf]
        exact ⟨rfl, Or.inl rfl, Nat.le_succ_of_le h⟩
      | some p =>
        rw [dispatch_error_handled primary net s name args e p reqs hc hy hf]
        exact ⟨rfl, Or.inl rfl, Nat.le_succ_of_le h⟩
  · rw [dispatch_ok primary net s name args r hc]
    exact ⟨rfl, Or.inr rfl, Nat.succ_le_succ h⟩

/-- C9, witness: the invariant at the fresh bridge state. -/
theorem C9_witness :
    (call_tool_with_fallback okPrimary netDead initState "get_event_info"
      args2023).state.tool_calls = initState.tool_calls + 1 ∧
    ((call_tool_with_fallback okPrimary netDead initState "get_event_info"
      args2023).state.successful_calls = initState.successful_calls ∨
     (call_tool_with_fallback okPrimary netDead initState "get_event_info"
      args2023).state.successful_calls = initState.successful_calls + 1) ∧
    (call_tool_with_fallback okPrimary netDead initState "get_event_info"
      args2023).state.successful_calls ≤
    (call_tool_with_fallback okPrimary netDead initState "get_event_info"
      args2023).state.tool_calls :=
  C9_counters_invariant okPrimary netDead initState "get_event_info" args2023
    (Nat.le_refl 0)

/-- C10: a dispatch answered by the fallback provider double-wraps the
outcome: the fallback payload itself carries status and data fields, and
the tool endpoint wraps it again in its own status and data envelope, so
the caller receives a success envelope nested one level deeper than
declared. -/
theorem C10_double_wrapped_envelope (primary : Primary) (net : Net)
    (s : BridgeState) (name : String) (args : Arguments)
    (e : String) (p : Json) (r : List HttpRequest)
    (h : call_mcp_tool primary name args = Except.error e)
    (hy : yearIs2024 args = true)
    (hf : ergast_fallback net name args = (some p, r)) :
    (call_tool primary net s name args).1 =
      EndpointResponse.jsonBody
        (Json.obj [("status", Json.str "success"), ("data", p)]) ∧
    p.getField "status" = some (Json.str "success") ∧
    (p.getField "data").isSome = true := by
  have hd := dispatch_error_handled primary net s name args e p r h hy hf
  have henv := ergast_envelope net name args p (by rw [hf])
  exact ⟨by simp [call_tool, hd], henv.1, henv.2⟩

/-- C10, witness: the double wrap at the one-driver fixture. -/
theorem C10_witness :
    (call_tool failPrimary net1 initState "get_championship_standings"
      args2024).1 =
      EndpointResponse.jsonBody
        (Json.obj [("status", Json.str "success"), ("data", payload1)]) ∧
    payload1.getField "status" = some (Json.str "success") ∧
    (payload1.getField "data").isSome = true :=
  C10_double_wrapped_envelope failPrimary net1 initState
    "get_championship_standings" args2024 "boom" payload1
    [{ url := standingsUrl, timeout := none }] rfl rfl rfl

end F1Bridge
